import Mathlib

/-!
Verification of the connection-establishment core of SimpleAmqpClient
(src/src/Connection.cpp), as a shallow embedding in Lean 4.

External library calls (rabbitmq-c: amqp_new_connection, amqp_ssl_socket_new,
amqp_ssl_socket_set_cacert, amqp_ssl_socket_set_key, amqp_socket_open,
amqp_login_with_properties, amqp_parse_url, amqp_get_server_properties) are
modelled as inputs: an environment record carries each call's result, and the
embedded functions branch on those results exactly as the C++ code branches
on the corresponding return values.  Exceptions are modelled as error values
that propagate; a constructor run is summarised by a ConnOutcome record that
also records which externally visible steps were reached (client key
configured, socket opened) and whether the allocated connection object was
destroyed before an escaping error.
-/

/-- The exception kinds that can escape the connection-establishment core.
Each constructor corresponds to a C++ exception type thrown in
src/src/Connection.cpp:
badUri = BadUriException, unsupportedSecureUri = std::runtime_error in
CreateSecureFromUri, badAlloc = std::bad_alloc, amqpLibraryError =
AmqpLibraryException, responseLibraryException = AmqpResponseLibraryException,
amqpServerException = the exception raised by AmqpException::Throw,
badLexicalCast = boost::bad_lexical_cast escaping ComputeBrokerVersion,
sslNotSupported = std::logic_error in the no-SSL build. -/
inductive SacError where
  | badUri
  | unsupportedSecureUri
  | badAlloc
  | amqpLibraryError (code : Int) (context : String)
  | responseLibraryException
  | amqpServerException
  | badLexicalCast
  | sslNotSupported
deriving DecidableEq, Repr

/-- amqp_response_type_enum values from amqp.h (modelled as Nat so that
values outside the enumeration can also be passed, as the C switch can
receive them). -/
def AMQP_RESPONSE_NORMAL : Nat := 1

def AMQP_RESPONSE_LIBRARY_EXCEPTION : Nat := 2

def AMQP_RESPONSE_SERVER_EXCEPTION : Nat := 3

/-- Modelled from the spec: AmqpException::Throw (AmqpException.cpp, not under
src/) raises the server/protocol exception built from the reply.  Only the
fact that it raises is needed here. -/
def AmqpExceptionThrow : SacError := SacError.amqpServerException

/-- Connection::CheckRpcReply (Connection.cpp lines 219-232).  Returns none
when the function returns normally, and some e when it throws e.  The C++
switch sends AMQP_RESPONSE_NORMAL to return, AMQP_RESPONSE_LIBRARY_EXCEPTION
to AmqpResponseLibraryException, and AMQP_RESPONSE_SERVER_EXCEPTION together
with the default case to AmqpException::Throw. -/
def CheckRpcReply (reply_type : Nat) : Option SacError :=
  if reply_type = AMQP_RESPONSE_NORMAL then
    none
  else if reply_type = AMQP_RESPONSE_LIBRARY_EXCEPTION then
    some SacError.responseLibraryException
  else
    some AmqpExceptionThrow

/-- boost::split of a string on the separator set ".", at the character
level (structural recursion so the kernel can evaluate it).  On the empty
string boost::split yields one empty token, matching the base case. -/
def splitDot : List Char → List (List Char)
  | [] => [[]]
  | c :: rest =>
    match splitDot rest with
    | t :: ts => if c = '.' then [] :: t :: ts else (c :: t) :: ts
    | [] => [[c]]

/-- boost::lexical_cast to boost::uint32_t (Connection.cpp lines 269-274)
applied to one dot-separated component: succeeds exactly on a non-empty
all-digit decimal string whose value fits in 32 bits; otherwise it throws
bad_lexical_cast, modelled as none. -/
def lexical_cast_u32 (cs : List Char) : Option Nat :=
  if cs ≠ [] ∧ cs.all (fun c => c.isDigit) then
    let n := cs.foldl (fun acc c => acc * 10 + (c.toNat - 48)) 0
    if n < 2 ^ 32 then some n else none
  else
    none

/-- Connection.cpp lines 261-277, from version_string on: split on ".",
return 0 unless exactly 3 components, lexical_cast each component (none
models the escaping bad_lexical_cast), pack the three bytes. -/
def versionFromString (version_string : String) : Option Nat :=
  match splitDot version_string.toList with
  | [majorS, minorS, patchS] =>
    match lexical_cast_u32 majorS, lexical_cast_u32 minorS,
        lexical_cast_u32 patchS with
    | some version_major, some version_minor, some version_patch =>
      some ((version_major &&& 0xFF) <<< 16 |||
            (version_minor &&& 0xFF) <<< 8 |||
            (version_patch &&& 0xFF))
    | _, _, _ => none
  | _ => some 0

/-- Connection::ComputeBrokerVersion (Connection.cpp lines 245-277).  The
server property table is modelled as a list of (key, value-bytes) pairs; the
C++ code reads the value's bytes member directly.  The linear scan with break
taking the first entry whose key is byte-exactly "version" is List.find?.
Returns none when boost::lexical_cast throws (non-numeric component). -/
def ComputeBrokerVersion (properties : List (String × String)) : Option Nat :=
  match properties.find? (fun e => e.1 == "version") with
  | none => some 0
  | some version_entry => versionFromString version_entry.2

/-- The value of the "version" entry found by ComputeBrokerVersion's scan
(the first entry with byte-exact key "version"), if any. -/
def versionValue (properties : List (String × String)) : Option String :=
  (properties.find? (fun e => e.1 == "version")).map Prod.snd

/-- AMQP field values, as far as Connection.cpp builds them: booleans
(AMQP_FIELD_KIND_BOOLEAN) and nested tables (AMQP_FIELD_KIND_TABLE). -/
inductive AmqpFieldValue where
  | boolean (b : Bool)
  | table (entries : List (String × AmqpFieldValue))

/-- The capabilties array built in Connection::DoLogin (lines 194-200):
a single entry consumer_cancel_notify with boolean value 1. -/
def capabilties : List (String × AmqpFieldValue) :=
  [("consumer_cancel_notify", AmqpFieldValue.boolean true)]

/-- The capability_entry built in Connection::DoLogin (lines 202-206):
key "capabilities", value the capabilties table. -/
def capability_entry : String × AmqpFieldValue :=
  ("capabilities", AmqpFieldValue.table capabilties)

/-- The client_properties table built in Connection::DoLogin (lines 208-209):
num_entries = 1, entries = the capability_entry. -/
def client_properties : List (String × AmqpFieldValue) :=
  [capability_entry]

def BROKER_HEARTBEAT : Int := 0

inductive SaslMethod where
  | plain
  | external
deriving DecidableEq, Repr

/-- The arguments of the single amqp_login_with_properties call issued by
Connection::DoLogin (lines 211-214), in the order the C API takes them after
the connection state. -/
structure LoginRequest where
  vhost : String
  channel_max : Int
  frame_max : Int
  heartbeat : Int
  client_properties : List (String × AmqpFieldValue)
  sasl_method : SaslMethod
  username : String
  password : String

/-- The login request Connection::DoLogin builds from its arguments:
vhost, channel_max 0, frame_max, BROKER_HEARTBEAT, the client_properties
table, AMQP_SASL_METHOD_PLAIN, username, password. -/
def DoLoginRequest (username password vhost : String) (frame_max : Int) :
    LoginRequest :=
  { vhost := vhost
    channel_max := 0
    frame_max := frame_max
    heartbeat := BROKER_HEARTBEAT
    client_properties := client_properties
    sasl_method := SaslMethod.plain
    username := username
    password := password }

/-- Connection::DoLogin (lines 191-217), after the request is sent: the
broker's reply type and server property table are inputs.  CheckRpcReply
classifies the reply; on normal replies ComputeBrokerVersion runs, and a
bad_lexical_cast escaping it propagates. -/
def DoLogin (reply_type : Nat) (server_properties : List (String × String)) :
    Except SacError Nat :=
  match CheckRpcReply reply_type with
  | some e => Except.error e
  | none =>
    match ComputeBrokerVersion server_properties with
    | some v => Except.ok v
    | none => Except.error SacError.badLexicalCast

/-- Summary of one constructor run: the escaping exception (none = the object
was fully constructed), whether amqp_ssl_socket_set_key was called, whether
amqp_socket_open was called, whether amqp_new_connection had returned a
non-NULL connection, and whether amqp_destroy_connection was called on it
before an escaping exception. -/
structure ConnOutcome where
  error : Option SacError
  setKeyCalled : Bool
  openCalled : Bool
  connAllocated : Bool
  connDestroyed : Bool
deriving DecidableEq, Repr

/-- Results of the external calls made by the plain constructor. -/
structure PlainEnv where
  new_connection_ok : Bool
  socket_open_ret : Int
  login_reply_type : Nat
  server_properties : List (String × String)
deriving DecidableEq, Repr

/-- The plain Connection constructor (Connection.cpp lines 90-112):
allocate, then inside try: tcp socket, open, CheckForError (throws when the
open return is negative), DoLogin; any exception in the try block destroys
the connection and rethrows. -/
def ConnectionPlain (host : String) (port : Int)
    (username password vhost : String) (frame_max : Int) (env : PlainEnv) :
    ConnOutcome :=
  if env.new_connection_ok = false then
    { error := some SacError.badAlloc, setKeyCalled := false,
      openCalled := false, connAllocated := false, connDestroyed := false }
  else if env.socket_open_ret < 0 then
    { error := some (SacError.amqpLibraryError env.socket_open_ret ""),
      setKeyCalled := false, openCalled := true, connAllocated := true,
      connDestroyed := true }
  else
    match DoLogin env.login_reply_type env.server_properties with
    | Except.error e =>
      { error := some e, setKeyCalled := false, openCalled := true,
        connAllocated := true, connDestroyed := true }
    | Except.ok _ =>
      { error := none, setKeyCalled := false, openCalled := true,
        connAllocated := true, connDestroyed := false }

/-- Connection::SSLConnectionParams (Connection.h). -/
structure SSLConnectionParams where
  path_to_ca_cert : String
  path_to_client_key : String
  path_to_client_cert : String
  verify_hostname : Bool
deriving DecidableEq, Repr

/-- Results of the external calls made by the SSL constructor. -/
structure SslEnv where
  new_connection_ok : Bool
  ssl_socket_new_ok : Bool
  set_cacert_status : Int
  set_key_status : Int
  socket_open_status : Int
  login_reply_type : Nat
  server_properties : List (String × String)
deriving DecidableEq, Repr

/-- The tail of the SSL constructor's try block after the optional
amqp_ssl_socket_set_key step (Connection.cpp lines 155-161): open the
socket - non-zero status throws an AmqpLibraryException whose context
string is, in the source, the copy-pasted "Error setting client certificate
for socket" - then DoLogin; the catch-all destroys the connection and
rethrows.  setKeyCalled records whether the set_key step ran before this
tail. -/
def sslOpenAndLogin (setKeyCalled : Bool) (env : SslEnv) : ConnOutcome :=
  if env.socket_open_status ≠ 0 then
    { error := some (SacError.amqpLibraryError env.socket_open_status
        "Error setting client certificate for socket"),
      setKeyCalled := setKeyCalled, openCalled := true,
      connAllocated := true, connDestroyed := true }
  else
    match DoLogin env.login_reply_type env.server_properties with
    | Except.error e =>
      { error := some e, setKeyCalled := setKeyCalled, openCalled := true,
        connAllocated := true, connDestroyed := true }
    | Except.ok _ =>
      { error := none, setKeyCalled := setKeyCalled, openCalled := true,
        connAllocated := true, connDestroyed := false }

/-- The SSL Connection constructor (Connection.cpp lines 115-168, the build
with SAC_SSL_SUPPORT_ENABLED).  Order of the source: allocate connection
(throw bad_alloc if NULL); create SSL socket (throw bad_alloc if NULL -
note this throw is BEFORE the try block, so the connection is not
destroyed); set verify flags; then inside try: set CA cert (throw on
non-zero status), call amqp_ssl_socket_set_key only when both
path_to_client_key and path_to_client_cert are non-empty (throw on
non-zero status), then the open-and-login tail. -/
def ConnectionSSL (host : String) (port : Int)
    (username password vhost : String) (frame_max : Int)
    (ssl_params : SSLConnectionParams) (env : SslEnv) : ConnOutcome :=
  if env.new_connection_ok = false then
    { error := some SacError.badAlloc, setKeyCalled := false,
      openCalled := false, connAllocated := false, connDestroyed := false }
  else if env.ssl_socket_new_ok = false then
    { error := some SacError.badAlloc, setKeyCalled := false,
      openCalled := false, connAllocated := true, connDestroyed := false }
  else if env.set_cacert_status ≠ 0 then
    { error := some (SacError.amqpLibraryError env.set_cacert_status
        "Error setting CA certificate for socket"),
      setKeyCalled := false, openCalled := false, connAllocated := true,
      connDestroyed := true }
  else if ssl_params.path_to_client_key ≠ "" ∧
      ssl_params.path_to_client_cert ≠ "" then
    if env.set_key_status ≠ 0 then
      { error := some (SacError.amqpLibraryError env.set_key_status
          "Error setting client certificate for socket"),
        setKeyCalled := true, openCalled := false, connAllocated := true,
        connDestroyed := true }
    else
      sslOpenAndLogin true env
  else
    sslOpenAndLogin false env

/-- The SSL Connection constructor in a build without SAC_SSL_SUPPORT_ENABLED
(Connection.cpp lines 170-175): throws std::logic_error unconditionally,
before anything is allocated or any I/O happens. -/
def ConnectionSSLNoSupport (host : String) (port : Int)
    (username password vhost : String) (frame_max : Int)
    (ssl_params : SSLConnectionParams) : ConnOutcome :=
  { error := some SacError.sslNotSupported, setKeyCalled := false,
    openCalled := false, connAllocated := false, connDestroyed := false }

/-- The result of amqp_parse_url: amqp_connection_info (amqp.h).  The parser
itself (rabbitmq-c) is external; its structured output is an input here. -/
structure AmqpConnectionInfo where
  user : String
  password : String
  host : String
  vhost : String
  port : Int
  ssl : Bool
deriving DecidableEq, Repr

/-- The construction request a Create* factory forwards to a constructor:
which constructor (secure or plain) and with which parameters. -/
structure ConnCall where
  secure : Bool
  host : String
  port : Int
  username : String
  password : String
  vhost : String
  frame_max : Int
deriving DecidableEq, Repr

/-- Connection::CreateFromUri (Connection.cpp lines 50-63): parse the URI
(parsed = none models a non-zero amqp_parse_url return, which throws
BadUriException), then call Create, i.e. the plain constructor, with the
parsed host, port, user, password and vhost. -/
def CreateFromUri (parsed : Option AmqpConnectionInfo) (frame_max : Int) :
    Except SacError ConnCall :=
  match parsed with
  | none => Except.error SacError.badUri
  | some info =>
    Except.ok
      { secure := false, host := info.host, port := info.port,
        username := info.user, password := info.password,
        vhost := info.vhost, frame_max := frame_max }

/-- Connection::CreateSecureFromUri (Connection.cpp lines 65-88): parse the
URI (throw BadUriException on failure); if info.ssl, call CreateSecure -
i.e. the SSL constructor - with the parsed parameters and the given TLS
paths; otherwise throw the runtime_error "CreateSecureFromUri only supports
SSL-enabled URIs." before any construction. -/
def CreateSecureFromUri (parsed : Option AmqpConnectionInfo)
    (path_to_ca_cert path_to_client_key path_to_client_cert : String)
    (verify_hostname : Bool) (frame_max : Int) (env : SslEnv) : ConnOutcome :=
  match parsed with
  | none =>
    { error := some SacError.badUri, setKeyCalled := false,
      openCalled := false, connAllocated := false, connDestroyed := false }
  | some info =>
    if info.ssl then
      ConnectionSSL info.host info.port info.user info.password info.vhost
        frame_max
        { path_to_ca_cert := path_to_ca_cert,
          path_to_client_key := path_to_client_key,
          path_to_client_cert := path_to_client_cert,
          verify_hostname := verify_hostname }
        env
    else
      { error := some SacError.unsupportedSecureUri, setKeyCalled := false,
        openCalled := false, connAllocated := false, connDestroyed := false }

/-! Helper lemmas shared by the claim theorems. -/

theorem computeBrokerVersion_of_versionValue_some
    (properties : List (String × String)) (s : String)
    (h : versionValue properties = some s) :
    ComputeBrokerVersion properties = versionFromString s := by
  rcases Option.map_eq_some'.mp h with ⟨e, hfind, he⟩
  simp [ComputeBrokerVersion, hfind, he]

theorem computeBrokerVersion_of_versionValue_none
    (properties : List (String × String))
    (h : versionValue properties = none) :
    ComputeBrokerVersion properties = some 0 := by
  rw [versionValue, Option.map_eq_none'] at h
  simp [ComputeBrokerVersion, h]

theorem versionFromString_of_length_ne_three (s : String)
    (h : (splitDot s.toList).length ≠ 3) :
    versionFromString s = some 0 := by
  unfold versionFromString
  rcases hs : splitDot s.toList with _ | ⟨a, _ | ⟨b, _ | ⟨c, _ | ⟨d, t⟩⟩⟩⟩ <;>
    first
      | rfl
      | exact absurd (by rw [hs]; rfl) h

theorem versionFromString_cast_fail (s : String) (a b c : List Char)
    (hs : splitDot s.toList = [a, b, c])
    (h : lexical_cast_u32 a = none ∨ lexical_cast_u32 b = none ∨
      lexical_cast_u32 c = none) :
    versionFromString s = none := by
  unfold versionFromString
  rw [hs]
  cases hca : lexical_cast_u32 a <;> cases hcb : lexical_cast_u32 b <;>
    cases hcc : lexical_cast_u32 c <;> simp_all

theorem sslOpenAndLogin_setKeyCalled (sk : Bool) (env : SslEnv) :
    (sslOpenAndLogin sk env).setKeyCalled = sk := by
  unfold sslOpenAndLogin
  split_ifs <;> try rfl
  cases hDL : DoLogin env.login_reply_type env.server_properties <;> rfl

theorem sslOpenAndLogin_openCalled (sk : Bool) (env : SslEnv) :
    (sslOpenAndLogin sk env).openCalled = true := by
  unfold sslOpenAndLogin
  split_ifs <;> try rfl
  cases hDL : DoLogin env.login_reply_type env.server_properties <;> rfl

/-! The claim theorems. -/

/-- Claim C1 (amended).  For a server property table whose version entry has
0, 1, 2, or 4 or more dot-separated components, or no byte-exact "version"
key at all, ComputeBrokerVersion returns 0 without raising; but for an
exactly-3-component version string, a component on which boost::lexical_cast
fails (non-numeric, empty, or overflowing) makes the bad_lexical_cast
exception propagate (modelled as none) instead of returning 0. -/
theorem computeBrokerVersion_malformed_amended :
    (∀ (properties : List (String × String)) (s : String),
        versionValue properties = some s →
        (splitDot s.toList).length ≠ 3 →
        ComputeBrokerVersion properties = some 0) ∧
    (∀ properties : List (String × String),
        versionValue properties = none →
        ComputeBrokerVersion properties = some 0) ∧
    (∀ (properties : List (String × String)) (s : String) (a b c : List Char),
        versionValue properties = some s →
        splitDot s.toList = [a, b, c] →
        (lexical_cast_u32 a = none ∨ lexical_cast_u32 b = none ∨
          lexical_cast_u32 c = none) →
        ComputeBrokerVersion properties = none) := by
  refine ⟨?_, ?_, ?_⟩
  · intro props s hv hlen
    rw [computeBrokerVersion_of_versionValue_some props s hv]
    exact versionFromString_of_length_ne_three s hlen
  · intro props hv
    exact computeBrokerVersion_of_versionValue_none props hv
  · intro props s a b c hv hs h
    rw [computeBrokerVersion_of_versionValue_some props s hv]
    exact versionFromString_cast_fail s a b c hs h

/-- Claim C1, witness for the amended theorem at concrete inputs: a
2-component and a 4-component version string give 0, and a 3-component
string with a non-numeric middle component gives the escaping exception. -/
theorem computeBrokerVersion_malformed_amended_witness :
    ComputeBrokerVersion [("version", "3.8")] = some 0 ∧
    ComputeBrokerVersion [("version", "1.2.3.4")] = some 0 ∧
    ComputeBrokerVersion [("version", "3.x.1")] = none :=
  ⟨computeBrokerVersion_malformed_amended.1 [("version", "3.8")] "3.8"
      (by decide) (by decide),
   computeBrokerVersion_malformed_amended.1 [("version", "1.2.3.4")] "1.2.3.4"
      (by decide) (by decide),
   computeBrokerVersion_malformed_amended.2.2 [("version", "3.x.1")] "3.x.1"
      [Char.ofNat 51] [Char.ofNat 120] [Char.ofNat 49]
      (by decide) (by decide) (Or.inr (Or.inl (by decide)))⟩

/-- Claim C1, counterexample to the claim as stated: the 3-component
non-numeric version string "a.b.c" makes ComputeBrokerVersion propagate the
bad_lexical_cast exception (none) rather than return 0. -/
theorem computeBrokerVersion_nonnumeric_raises :
    ComputeBrokerVersion [("version", "a.b.c")] = none ∧
    ¬ ComputeBrokerVersion [("version", "a.b.c")] = some 0 := by decide

/-- Claim C4 (confirmed).  ComputeBrokerVersion packs a 3-component version
as the bitwise OR of the byte-masked components shifted by 16, 8 and 0;
"3.8.2" gives 0x030802; the 4-component "3.8.2.1" gives 0; "999.0.0" gives
the major component masked to 0xFF (0xE70000); a table with no byte-exact
"version" key gives 0. -/
theorem computeBrokerVersion_packing :
    (∀ (properties : List (String × String)) (s : String)
        (a b c : List Char) (ma mi pa : Nat),
        versionValue properties = some s →
        splitDot s.toList = [a, b, c] →
        lexical_cast_u32 a = some ma →
        lexical_cast_u32 b = some mi →
        lexical_cast_u32 c = some pa →
        ComputeBrokerVersion properties =
          some ((ma &&& 0xFF) <<< 16 ||| (mi &&& 0xFF) <<< 8 |||
            (pa &&& 0xFF))) ∧
    ComputeBrokerVersion [("product", "RabbitMQ"), ("version", "3.8.2")] =
      some 0x030802 ∧
    ComputeBrokerVersion [("version", "3.8.2.1")] = some 0 ∧
    ComputeBrokerVersion [("version", "999.0.0")] = some 0xE70000 ∧
    (∀ properties : List (String × String),
        (∀ e ∈ properties, e.1 ≠ "version") →
        ComputeBrokerVersion properties = some 0) := by
  refine ⟨?_, by decide, by decide, by decide, ?_⟩
  · intro props s a b c ma mi pa hv hs ha hb hc
    rw [computeBrokerVersion_of_versionValue_some props s hv]
    unfold versionFromString
    rw [hs]
    simp [ha, hb, hc]
  · intro props hnone
    apply computeBrokerVersion_of_versionValue_none
    rw [versionValue, Option.map_eq_none', List.find?_eq_none]
    intro e he
    simp [hnone e he]

/-- Claim C4, witness for the general packing conjunct and the missing-key
conjunct at concrete inputs. -/
theorem computeBrokerVersion_packing_witness :
    ComputeBrokerVersion [("version", "12.34.56")] =
      some ((12 &&& 0xFF) <<< 16 ||| (34 &&& 0xFF) <<< 8 ||| (56 &&& 0xFF)) ∧
    ComputeBrokerVersion [("platform", "Erlang")] = some 0 :=
  ⟨computeBrokerVersion_packing.1 [("version", "12.34.56")] "12.34.56"
      [Char.ofNat 49, Char.ofNat 50] [Char.ofNat 51, Char.ofNat 52]
      [Char.ofNat 53, Char.ofNat 54] 12 34 56
      (by decide) (by decide) (by decide) (by decide) (by decide),
   computeBrokerVersion_packing.2.2.2.2 [("platform", "Erlang")] (by decide)⟩

/-- Claim C2 (amended).  When exactly one of path_to_client_key and
path_to_client_cert is non-empty, the SSL constructor does not reject the
configuration: amqp_ssl_socket_set_key is silently skipped (it runs only
when both paths are non-empty), and construction proceeds to attempt the
network connection (amqp_socket_open is reached whenever allocation and the
CA-certificate step succeed). -/
theorem connectionSSL_single_cert_path_skipped :
    ∀ (host : String) (port : Int) (username password vhost : String)
      (frame_max : Int) (ssl_params : SSLConnectionParams) (env : SslEnv),
      ((ssl_params.path_to_client_key = "" ∧
          ssl_params.path_to_client_cert ≠ "") ∨
        (ssl_params.path_to_client_key ≠ "" ∧
          ssl_params.path_to_client_cert = "")) →
      (ConnectionSSL host port username password vhost frame_max ssl_params
          env).setKeyCalled = false ∧
      (env.new_connection_ok = true → env.ssl_socket_new_ok = true →
        env.set_cacert_status = 0 →
        (ConnectionSSL host port username password vhost frame_max ssl_params
            env).openCalled = true) := by
  intro host port username password vhost frame_max ssl_params env hmix
  have hcond : ¬(ssl_params.path_to_client_key ≠ "" ∧
      ssl_params.path_to_client_cert ≠ "") := by
    rcases hmix with ⟨h1, h2⟩ | ⟨h1, h2⟩ <;> simp [h1, h2]
  constructor
  · unfold ConnectionSSL
    split_ifs <;>
      first
        | rfl
        | exact sslOpenAndLogin_setKeyCalled false env
  · intro h1 h2 h3
    unfold ConnectionSSL
    rw [h1, h2, h3]
    simp [hcond, sslOpenAndLogin_openCalled]

/-- Claim C2, witness for the amended theorem: with only the client key
path supplied and every earlier step succeeding, set_key is skipped and the
socket open is reached. -/
theorem connectionSSL_single_cert_path_skipped_witness :
    (ConnectionSSL "localhost" 5671 "guest" "guest" "/" 131072
        { path_to_ca_cert := "ca.pem", path_to_client_key := "key.pem",
          path_to_client_cert := "", verify_hostname := true }
        { new_connection_ok := true, ssl_socket_new_ok := true,
          set_cacert_status := 0, set_key_status := 0,
          socket_open_status := 0, login_reply_type := 1,
          server_properties := [("version", "3.8.2")] }).setKeyCalled =
      false ∧
    (ConnectionSSL "localhost" 5671 "guest" "guest" "/" 131072
        { path_to_ca_cert := "ca.pem", path_to_client_key := "key.pem",
          path_to_client_cert := "", verify_hostname := true }
        { new_connection_ok := true, ssl_socket_new_ok := true,
          set_cacert_status := 0, set_key_status := 0,
          socket_open_status := 0, login_reply_type := 1,
          server_properties := [("version", "3.8.2")] }).openCalled = true :=
  ⟨(connectionSSL_single_cert_path_skipped "localhost" 5671 "guest" "guest"
      "/" 131072 _ _ (Or.inr ⟨by decide, rfl⟩)).1,
   (connectionSSL_single_cert_path_skipped "localhost" 5671 "guest" "guest"
      "/" 131072 _ _ (Or.inr ⟨by decide, rfl⟩)).2 rfl rfl rfl⟩

/-- Claim C2, counterexample to the claim as stated: with only
path_to_client_cert supplied (key empty), the secure constructor does not
fail before the network connection is attempted - it opens the socket and,
with a cooperating broker, constructs successfully. -/
theorem connectionSSL_single_cert_path_not_rejected :
    (ConnectionSSL "localhost" 5671 "guest" "guest" "/" 131072
        { path_to_ca_cert := "ca.pem", path_to_client_key := "",
          path_to_client_cert := "cert.pem", verify_hostname := true }
        { new_connection_ok := true, ssl_socket_new_ok := true,
          set_cacert_status := 0, set_key_status := 0,
          socket_open_status := 0, login_reply_type := 1,
          server_properties := [("version", "3.8.2")] }).openCalled = true ∧
    (ConnectionSSL "localhost" 5671 "guest" "guest" "/" 131072
        { path_to_ca_cert := "ca.pem", path_to_client_key := "",
          path_to_client_cert := "cert.pem", verify_hostname := true }
        { new_connection_ok := true, ssl_socket_new_ok := true,
          set_cacert_status := 0, set_key_status := 0,
          socket_open_status := 0, login_reply_type := 1,
          server_properties := [("version", "3.8.2")] }).error = none := by
  decide

/-- Claim C3 (code_bug).  When amqp_new_connection succeeds but
amqp_ssl_socket_new returns NULL, the SSL constructor throws std::bad_alloc
from outside its try block: the exception escapes with the connection
allocated (connAllocated = true) and never destroyed
(connDestroyed = false), contradicting the full-rollback claim. -/
theorem connectionSSL_socket_alloc_failure_leaks :
    ConnectionSSL "localhost" 5671 "guest" "guest" "/" 131072
        { path_to_ca_cert := "ca.pem", path_to_client_key := "",
          path_to_client_cert := "", verify_hostname := true }
        { new_connection_ok := true, ssl_socket_new_ok := false,
          set_cacert_status := 0, set_key_status := 0,
          socket_open_status := 0, login_reply_type := 1,
          server_properties := [] } =
      { error := some SacError.badAlloc, setKeyCalled := false,
        openCalled := false, connAllocated := true,
        connDestroyed := false } := by
  decide

/-- Claim C5 (confirmed).  CheckRpcReply returns normally exactly for
AMQP_RESPONSE_NORMAL; AMQP_RESPONSE_LIBRARY_EXCEPTION raises
AmqpResponseLibraryException; AMQP_RESPONSE_SERVER_EXCEPTION and every
other reply type fall into AmqpException::Throw (fail closed). -/
theorem checkRpcReply_classification :
    ∀ reply_type : Nat,
      (CheckRpcReply reply_type = none ↔
        reply_type = AMQP_RESPONSE_NORMAL) ∧
      (reply_type = AMQP_RESPONSE_LIBRARY_EXCEPTION →
        CheckRpcReply reply_type = some SacError.responseLibraryException) ∧
      (reply_type = AMQP_RESPONSE_SERVER_EXCEPTION ∨
          (reply_type ≠ AMQP_RESPONSE_NORMAL ∧
            reply_type ≠ AMQP_RESPONSE_LIBRARY_EXCEPTION) →
        CheckRpcReply reply_type = some SacError.amqpServerException) := by
  intro t
  unfold CheckRpcReply AmqpExceptionThrow AMQP_RESPONSE_NORMAL
    AMQP_RESPONSE_LIBRARY_EXCEPTION AMQP_RESPONSE_SERVER_EXCEPTION
  by_cases h1 : t = 1 <;> by_cases h2 : t = 2 <;> simp_all

/-- Claim C5, witness: concrete classification of a library-exception
reply, a server-exception reply, and an out-of-range reply type. -/
theorem checkRpcReply_classification_witness :
    CheckRpcReply 2 = some SacError.responseLibraryException ∧
    CheckRpcReply 3 = some SacError.amqpServerException ∧
    CheckRpcReply 7 = some SacError.amqpServerException :=
  ⟨(checkRpcReply_classification 2).2.1 rfl,
   (checkRpcReply_classification 3).2.2 (Or.inl rfl),
   (checkRpcReply_classification 7).2.2 (Or.inr ⟨by decide, by decide⟩)⟩

/-- Claim C6 (confirmed).  For every successfully parsed URI that is not
SSL-enabled, CreateSecureFromUri throws the "only supports SSL-enabled
URIs" runtime_error with nothing allocated, no socket opened and no secure
construction attempted. -/
theorem createSecureFromUri_rejects_plain_uri :
    ∀ (info : AmqpConnectionInfo)
      (path_to_ca_cert path_to_client_key path_to_client_cert : String)
      (verify_hostname : Bool) (frame_max : Int) (env : SslEnv),
      info.ssl = false →
      CreateSecureFromUri (some info) path_to_ca_cert path_to_client_key
          path_to_client_cert verify_hostname frame_max env =
        { error := some SacError.unsupportedSecureUri, setKeyCalled := false,
          openCalled := false, connAllocated := false,
          connDestroyed := false } := by
  intro info ca key cert verify f env h
  simp [CreateSecureFromUri, h]

/-- Claim C6, witness: a parsed plain amqp URI for localhost is rejected
with no socket opened. -/
theorem createSecureFromUri_rejects_plain_uri_witness :
    CreateSecureFromUri
        (some { user := "guest", password := "guest", host := "localhost",
                vhost := "/", port := 5672, ssl := false })
        "ca.pem" "" "" true 131072
        { new_connection_ok := true, ssl_socket_new_ok := true,
          set_cacert_status := 0, set_key_status := 0,
          socket_open_status := 0, login_reply_type := 1,
          server_properties := [] } =
      { error := some SacError.unsupportedSecureUri, setKeyCalled := false,
        openCalled := false, connAllocated := false,
        connDestroyed := false } :=
  createSecureFromUri_rejects_plain_uri
    { user := "guest", password := "guest", host := "localhost",
      vhost := "/", port := 5672, ssl := false }
    "ca.pem" "" "" true 131072
    { new_connection_ok := true, ssl_socket_new_ok := true,
      set_cacert_status := 0, set_key_status := 0, socket_open_status := 0,
      login_reply_type := 1, server_properties := [] } rfl

/-- Claim C7 (confirmed).  In a build without SAC_SSL_SUPPORT_ENABLED the
secure constructor throws the std::logic_error for every argument value,
with no allocation, no set_key, no socket open, hence no network I/O and no
plaintext fallback. -/
theorem connectionSSLNoSupport_always_fails :
    ∀ (host : String) (port : Int) (username password vhost : String)
      (frame_max : Int) (ssl_params : SSLConnectionParams),
      ConnectionSSLNoSupport host port username password vhost frame_max
          ssl_params =
        { error := some SacError.sslNotSupported, setKeyCalled := false,
          openCalled := false, connAllocated := false,
          connDestroyed := false } :=
  fun _ _ _ _ _ _ _ => rfl

/-- Claim C8 (confirmed).  The client-properties table DoLogin sends is the
same for all connection parameters, and is exactly one top-level entry
"capabilities" whose value is the table with the single boolean entry
consumer_cancel_notify = true. -/
theorem doLogin_client_properties_fixed :
    (∀ (u p v : String) (f : Int) (u₂ p₂ v₂ : String) (f₂ : Int),
        (DoLoginRequest u p v f).client_properties =
          (DoLoginRequest u₂ p₂ v₂ f₂).client_properties) ∧
    client_properties.length = 1 ∧
    client_properties =
      [("capabilities", AmqpFieldValue.table
          [("consumer_cancel_notify", AmqpFieldValue.boolean true)])] :=
  ⟨fun _ _ _ _ _ _ _ _ => rfl, rfl, rfl⟩

/-- Claim C9 (confirmed).  For every username, password, vhost and
frame_max, the single amqp_login_with_properties call DoLogin issues passes
the given vhost, channel_max 0, the given frame_max, heartbeat 0, the fixed
client-properties table, the SASL PLAIN mechanism, and the given username
and password. -/
theorem doLoginRequest_fields :
    ∀ (username password vhost : String) (frame_max : Int),
      DoLoginRequest username password vhost frame_max =
        { vhost := vhost, channel_max := 0, frame_max := frame_max,
          heartbeat := 0,
          client_properties := [("capabilities", AmqpFieldValue.table
            [("consumer_cancel_notify", AmqpFieldValue.boolean true)])],
          sasl_method := SaslMethod.plain,
          username := username, password := password } :=
  fun _ _ _ _ => rfl

/-- Claim C10 (confirmed).  For every successfully parsed URI - whatever
its ssl flag, so in particular for amqps URIs - CreateFromUri forwards to
the plain (non-secure) constructor with the parsed host, port, user,
password and vhost; it neither fails nor constructs a secure connection. -/
theorem createFromUri_ignores_ssl_flag :
    ∀ (info : AmqpConnectionInfo) (frame_max : Int),
      CreateFromUri (some info) frame_max =
        Except.ok
          { secure := false, host := info.host, port := info.port,
            username := info.user, password := info.password,
            vhost := info.vhost, frame_max := frame_max } :=
  fun _ _ => rfl
